import Mathlib

/-!
Shallow embedding of the ML inference service
(`src/inference-service/app/main.py`) — validation pipeline, error
taxonomy, metrics collector and the `/predict` request flow — together
with theorems settling the specification claims about it.

Modelling conventions:
* Python floats arriving as JSON feature values are modelled by `FVal`:
  either a finite rational or one of the non-finite values (NaN, +Inf,
  -Inf).  Pydantic's `list[list[float]]` coercion guarantees every value
  is a float before the handler runs, so `isinstance` checks in
  `validate_input` are enforced by the type and the remaining content
  check is finiteness.
* Latencies are rationals (seconds), supplied as inputs: wall-clock time
  is external to the program.
* The demo torch network (`Linear/ReLU/Softmax`) maps each row of the
  batch to an output independently of the other rows; it is embedded as
  an arbitrary per-row function `net : List FVal → PredResult`, a test
  double in the sense of the design notes.  `torch.tensor` on a ragged
  nested list raises `ValueError`; this is embedded by `torchTensorOk`.
* FastAPI resolves the `verify_api_key` dependency before validating the
  request body, and a `ValueError` raised by the pydantic
  `field_validator` is turned into the framework's own 422 response
  (payload `parseError`), bypassing the custom `InferenceError` handler.
-/

namespace MLInference

/-- A JSON numeric value after pydantic coercion to `float`:
finite rational, NaN, or a signed infinity. -/
inductive FVal where
  | num (q : ℚ)
  | nan
  | inf
  | ninf
deriving DecidableEq, Repr

/-- `np.isfinite` on an `FVal`. -/
def FVal.isFinite : FVal → Bool
  | .num _ => true
  | _ => false

/-- Environment-derived configuration: `MAX_BATCH_SIZE` (default 100),
`MAX_FEATURES` (default 1000), `API_KEY` (empty string = auth disabled). -/
structure Config where
  maxBatchSize : ℕ := 100
  maxFeatures : ℕ := 1000
  apiKey : String := ""

/-- The default configuration (no environment overrides). -/
def defaultConfig : Config := {}

/-- `ModelWrapper.input_features = 10`: expected input size of the model. -/
def input_features : ℕ := 10

/-- The `Metrics` collector state (`Metrics.__init__`), with the latency
histogram's six fixed buckets inlined as fields. -/
structure Metrics where
  request_count : ℕ
  request_latency_sum : ℚ
  prediction_count : ℕ
  error_count : ℕ
  validation_error_count : ℕ
  auth_error_count : ℕ
  instances_processed : ℕ
  le_10ms : ℕ
  le_50ms : ℕ
  le_100ms : ℕ
  le_500ms : ℕ
  le_1000ms : ℕ
  le_inf : ℕ
deriving DecidableEq, Repr

/-- The module-level `metrics = Metrics()` initial state: all counters 0. -/
def Metrics.init : Metrics :=
  ⟨0, 0, 0, 0, 0, 0, 0, 0, 0, 0, 0, 0, 0⟩

/-- `Metrics.record_request(latency, success, instances)`: bumps the
request counter and latency sum, files the latency (in seconds) into the
first histogram bucket whose bound (ms) it does not exceed, and bumps
either `prediction_count` or `error_count`. -/
def Metrics.record_request (m : Metrics) (latency : ℚ) (success : Bool)
    (instances : ℕ) : Metrics :=
  let m := { m with
    request_count := m.request_count + 1
    request_latency_sum := m.request_latency_sum + latency
    instances_processed := m.instances_processed + instances }
  let latency_ms := latency * 1000
  let m :=
    if latency_ms ≤ 10 then { m with le_10ms := m.le_10ms + 1 }
    else if latency_ms ≤ 50 then { m with le_50ms := m.le_50ms + 1 }
    else if latency_ms ≤ 100 then { m with le_100ms := m.le_100ms + 1 }
    else if latency_ms ≤ 500 then { m with le_500ms := m.le_500ms + 1 }
    else if latency_ms ≤ 1000 then { m with le_1000ms := m.le_1000ms + 1 }
    else { m with le_inf := m.le_inf + 1 }
  if success then { m with prediction_count := m.prediction_count + 1 }
  else { m with error_count := m.error_count + 1 }

/-- `Metrics.record_validation_error`. -/
def Metrics.record_validation_error (m : Metrics) : Metrics :=
  { m with
    validation_error_count := m.validation_error_count + 1
    error_count := m.error_count + 1 }

/-- `Metrics.record_auth_error`. -/
def Metrics.record_auth_error (m : Metrics) : Metrics :=
  { m with
    auth_error_count := m.auth_error_count + 1
    error_count := m.error_count + 1 }

/-- Sum of all latency-histogram bucket counters. -/
def Metrics.histSum (m : Metrics) : ℕ :=
  m.le_10ms + m.le_50ms + m.le_100ms + m.le_500ms + m.le_1000ms + m.le_inf

/-- The `inference_latency_bucket` lines of `Metrics.to_prometheus`, as
(`le` label, rendered value) pairs: each `le` label is rendered with the
raw count of its own bucket field (main.py lines 205-210). -/
def Metrics.bucketLines (m : Metrics) : List (String × ℕ) :=
  [("0.01", m.le_10ms), ("0.05", m.le_50ms), ("0.1", m.le_100ms),
   ("0.5", m.le_500ms), ("1.0", m.le_1000ms), ("+Inf", m.le_inf)]

/-- Value rendered in the exposition for a given `le` label. -/
def Metrics.renderedBucket (m : Metrics) (le : String) : Option ℕ :=
  List.lookup le m.bucketLines

/-- A value in an error's `details` mapping: string or number. -/
inductive DVal where
  | s (v : String)
  | n (v : ℕ)
deriving DecidableEq, Repr

/-- An `InferenceError`: machine code, message, and details mapping.
The concrete subclasses fix `error_code` to one of
MODEL_NOT_LOADED, MODEL_LOAD_ERROR, VALIDATION_ERROR, PREDICTION_ERROR,
AUTHENTICATION_ERROR, RATE_LIMIT_ERROR. -/
structure InferenceErr where
  error_code : String
  message : String
  details : List (String × DVal)
deriving DecidableEq, Repr

/-- `ModelNotLoadedError()` with its default message. -/
def InferenceErr.modelNotLoaded : InferenceErr :=
  ⟨"MODEL_NOT_LOADED", "Model not loaded", []⟩

/-- The `status_code_map` dict of `inference_error_handler`. -/
def status_code_map : List (String × ℕ) :=
  [("MODEL_NOT_LOADED", 503),
   ("MODEL_LOAD_ERROR", 503),
   ("VALIDATION_ERROR", 422),
   ("PREDICTION_ERROR", 500),
   ("AUTHENTICATION_ERROR", 401),
   ("RATE_LIMIT_ERROR", 429)]

/-- `status_code_map.get(exc.error_code, 500)`: transport status for an
error code, defaulting to 500. -/
def statusOf (code : String) : ℕ :=
  (List.lookup code status_code_map).getD 500

/-- One prediction outcome: `argmax` class, its probability, and the
full probability vector, as produced per batch row. -/
structure PredResult where
  prediction : ℕ
  confidence : ℚ
  probabilities : List ℚ
deriving DecidableEq, Repr

/-- Body of an HTTP response from `/predict`:
* `success`: the `PredictionResponse` (we keep the predictions list);
* `apiError`: the structured `APIError` built by the custom exception
  handlers (the spec's ErrorRecord);
* `parseError`: FastAPI's own 422 body for a `RequestValidationError`
  raised while parsing/validating the request body (a `detail` list, not
  an `APIError`). -/
inductive Payload where
  | success (predictions : List PredResult)
  | apiError (e : InferenceErr)
  | parseError (msg : String)
deriving DecidableEq, Repr

/-- `error_code` field of the response payload, when the payload is a
structured `APIError`. -/
def Payload.errorCodeOf : Payload → Option String
  | .apiError e => some e.error_code
  | _ => none

/-- `details` field of the response payload, when the payload is a
structured `APIError`. -/
def Payload.detailsOf : Payload → Option (List (String × DVal))
  | .apiError e => some e.details
  | _ => none

/-- Number of structured ErrorRecords (`APIError` payloads) carried by a
response payload. -/
def Payload.errorRecords : Payload → ℕ
  | .apiError _ => 1
  | _ => 0

/-- An HTTP response: transport status and body. -/
structure HttpResponse where
  status : ℕ
  payload : Payload
deriving DecidableEq, Repr

/-- `verify_api_key`: passes every request when `API_KEY` is empty;
otherwise rejects an absent or empty presented key (`not api_key` in
Python is true for both `None` and `""`) and a mismatching one, counting
an auth error each time. -/
def verify_api_key (cfg : Config) (api_key : Option String) (m : Metrics) :
    Except InferenceErr Unit × Metrics :=
  if cfg.apiKey = "" then (.ok (), m)
  else
    let k := api_key.getD ""
    if k = "" then
      (.error ⟨"AUTHENTICATION_ERROR", "API key is required", []⟩,
       m.record_auth_error)
    else if k ≠ cfg.apiKey then
      (.error ⟨"AUTHENTICATION_ERROR", "Invalid API key", []⟩,
       m.record_auth_error)
    else (.ok (), m)

/-- `PredictionRequest.validate_instances`, the pydantic
`field_validator` run while parsing the body: rejects an empty list and
a batch larger than `MAX_BATCH_SIZE` with a `ValueError` message
(surfaced by FastAPI as a 422 `RequestValidationError`). -/
def validate_instances (cfg : Config) (v : List (List FVal)) :
    Option String :=
  if v.isEmpty then some "instances cannot be empty"
  else if v.length > cfg.maxBatchSize then
    some ("batch size exceeds maximum of " ++ toString cfg.maxBatchSize)
  else none

namespace ModelWrapper

/-- The finiteness scan over one instance's values (the inner loop of
`validate_input`; the `isinstance` number check is enforced by `FVal`).
`i`, `j` are the indices used in the error message and details. -/
def checkValues (i : ℕ) : ℕ → List FVal → Option InferenceErr
  | _, [] => none
  | j, v :: rest =>
    if v.isFinite then checkValues i (j + 1) rest
    else some ⟨"VALIDATION_ERROR",
      "Instance " ++ toString i ++ ", feature " ++ toString j ++
        " is not finite (NaN or Inf)",
      [("field", .s ("instances[" ++ toString i ++ "][" ++ toString j ++ "]"))]⟩

/-- Per-instance checks of `validate_input`: the `isinstance(instance,
list)` check is enforced by the type; then the feature-count bound, then
the per-value scan. -/
def checkInstance (cfg : Config) (i : ℕ) (inst : List FVal) :
    Option InferenceErr :=
  if inst.length > cfg.maxFeatures then
    some ⟨"VALIDATION_ERROR",
      "Instance " ++ toString i ++ " has " ++ toString inst.length ++
        " features, maximum is " ++ toString cfg.maxFeatures,
      [("field", .s ("instances[" ++ toString i ++ "]")),
       ("max_features", .n cfg.maxFeatures), ("actual", .n inst.length)]⟩
  else checkValues i 0 inst

/-- The `for i, instance in enumerate(features)` loop of
`validate_input`, reporting the first violation. -/
def checkInstances (cfg : Config) : ℕ → List (List FVal) → Option InferenceErr
  | _, [] => none
  | i, inst :: rest =>
    match checkInstance cfg i inst with
    | some e => some e
    | none => checkInstances cfg (i + 1) rest

/-- `ModelWrapper.validate_input`: empty-batch check, batch-size bound,
then the per-instance scans, returning the first violation (as the
raised `ValidationError`) or `none` when the batch is accepted. -/
def validate_input (cfg : Config) (features : List (List FVal)) :
    Option InferenceErr :=
  if features.isEmpty then
    some ⟨"VALIDATION_ERROR", "Empty instances list",
      [("field", .s "instances"), ("reason", .s "list cannot be empty")]⟩
  else if features.length > cfg.maxBatchSize then
    some ⟨"VALIDATION_ERROR",
      "Batch size " ++ toString features.length ++ " exceeds maximum " ++
        toString cfg.maxBatchSize,
      [("field", .s "instances"), ("max_batch_size", .n cfg.maxBatchSize),
       ("actual", .n features.length)]⟩
  else checkInstances cfg 0 features

/-- `torch.tensor(features)` succeeds on a nested list exactly when the
rows all share one length (otherwise it raises `ValueError`, caught and
re-raised as `PredictionError`). -/
def torchTensorOk (features : List (List FVal)) : Bool :=
  match features with
  | [] => true
  | r :: rs => rs.all (fun row => row.length == r.length)

/-- `input_tensor.shape[1]`: the common row length of the batch. -/
def batchWidth (features : List (List FVal)) : ℕ :=
  (features.headD []).length

/-- The shape-adjustment step of `ModelWrapper.predict`: when the batch
width is below `input_features`, each row is right-padded with zeros;
when above, each row is truncated; otherwise left unchanged. -/
def adjustRow (width feats : ℕ) (row : List FVal) : List FVal :=
  if width < feats then row ++ List.replicate (feats - width) (FVal.num 0)
  else if feats < width then row.take feats
  else row

/-- `ModelWrapper.predict`: model-loaded check, `validate_input`, tensor
conversion (rectangularity), shape adjustment, then the network applied
row by row.  Any non-`ValidationError` failure inside the `try` block
(here: ragged batch) is re-raised as `PredictionError`. -/
def predict (loaded : Bool) (cfg : Config) (net : List FVal → PredResult)
    (features : List (List FVal)) : Except InferenceErr (List PredResult) :=
  if loaded = false then .error .modelNotLoaded
  else
    match validate_input cfg features with
    | some e => .error e
    | none =>
      if torchTensorOk features then
        .ok ((features.map (adjustRow (batchWidth features) input_features)).map net)
      else
        .error ⟨"PREDICTION_ERROR",
          "Inference failed: expected rectangular sequence", []⟩

end ModelWrapper

/-- An instance's first `input_features` values after zero-padding
shorter instances — the projection of an instance the model actually
sees (used to state the claim that later feature positions are
ignored). -/
def normalize10 (row : List FVal) : List FVal :=
  if row.length < input_features then
    row ++ List.replicate (input_features - row.length) (FVal.num 0)
  else row.take input_features

/-- `inference_error_handler`: maps the error code to a transport status
(default 500), counts a validation error when the code is
VALIDATION_ERROR, and returns the structured `APIError` payload. -/
def inference_error_handler (e : InferenceErr) (m : Metrics) :
    HttpResponse × Metrics :=
  let status := statusOf e.error_code
  let m' := if e.error_code = "VALIDATION_ERROR" then
    m.record_validation_error else m
  (⟨status, .apiError e⟩, m')

/-- `global_exception_handler`: any exception that is not an
`InferenceError` is collapsed to a structured 500 `INTERNAL_ERROR`
response (details omitted unless debug logging), bumping `error_count`
directly. -/
def global_exception_handler (_msg : String) (m : Metrics) :
    HttpResponse × Metrics :=
  (⟨500, .apiError ⟨"INTERNAL_ERROR", "An unexpected error occurred", []⟩⟩,
   { m with error_count := m.error_count + 1 })

/-- A failure reaching the application's exception-handling boundary:
either an `InferenceError` or any other exception (with its message). -/
inductive Exc where
  | inferr (e : InferenceErr)
  | other (msg : String)

/-- Dispatch of a failure at the boundary: `InferenceError`s go to
`inference_error_handler`, everything else to
`global_exception_handler`. -/
def handleException : Exc → Metrics → HttpResponse × Metrics
  | .inferr e, m => inference_error_handler e m
  | .other msg, m => global_exception_handler msg m

/-- The `/predict` request flow, from the resolved headers to the final
response, threading the metrics state:
1. the `verify_api_key` dependency (resolved by FastAPI before body
   validation); an `AuthenticationError` goes to the handler without
   touching `record_request`;
2. pydantic body validation (`validate_instances`); a failure is
   FastAPI's own 422, with no metrics side effect;
3. the handler body: model-loaded check, `ModelWrapper.predict`; the
   `finally` block records the request (success flag, instance count 0
   on failure), and a raised `InferenceError` then reaches
   `inference_error_handler`. -/
def handlePredict (cfg : Config) (loaded : Bool)
    (net : List FVal → PredResult) (latency : ℚ) (api_key : Option String)
    (instances : List (List FVal)) (m : Metrics) : HttpResponse × Metrics :=
  match verify_api_key cfg api_key m with
  | (.error e, m1) => inference_error_handler e m1
  | (.ok _, m1) =>
    match validate_instances cfg instances with
    | some msg => (⟨422, .parseError msg⟩, m1)
    | none =>
      if loaded = false then
        inference_error_handler .modelNotLoaded
          (m1.record_request latency false 0)
      else
        match ModelWrapper.predict loaded cfg net instances with
        | .error e =>
          inference_error_handler e (m1.record_request latency false 0)
        | .ok results =>
          (⟨200, .success results⟩,
           m1.record_request latency true instances.length)

/-- A concrete test double for the per-row network (the design notes
allow substituting one for the numeric backend). -/
def constNet : List FVal → PredResult := fun _ => ⟨0, 1, [1, 0]⟩

/-- One mutation of the metrics collector: the three public recording
methods. -/
inductive MEvent where
  | req (latency : ℚ) (success : Bool) (instances : ℕ)
  | valErr
  | authErr

/-- Apply one recording call to the collector state. -/
def MEvent.apply (m : Metrics) : MEvent → Metrics
  | .req latency success instances => m.record_request latency success instances
  | .valErr => m.record_validation_error
  | .authErr => m.record_auth_error

/-- The collector state reached from the initial state by a sequence of
recording calls. -/
def runEvents (es : List MEvent) : Metrics :=
  es.foldl MEvent.apply Metrics.init

/-- The exact amount `error_count` grows by during the handling of one
`/predict` request, as a function of the response payload: validation
failures inside the handler are counted twice (once by
`record_request(success=False)`, once by `record_validation_error`),
body-parse failures not at all, and every other failure once. -/
def errDelta : Payload → ℕ
  | .success _ => 0
  | .parseError _ => 0
  | .apiError e => if e.error_code = "VALIDATION_ERROR" then 2 else 1

/-! ### Helper lemmas about the metrics collector -/

theorem Metrics.record_request_counts (m : Metrics) (latency : ℚ)
    (success : Bool) (instances : ℕ) :
    (m.record_request latency success instances).request_count = m.request_count + 1 ∧
    (m.record_request latency success instances).error_count =
      m.error_count + (if success then 0 else 1) ∧
    (m.record_request latency success instances).prediction_count =
      m.prediction_count + (if success then 1 else 0) ∧
    (m.record_request latency success instances).validation_error_count =
      m.validation_error_count ∧
    (m.record_request latency success instances).auth_error_count =
      m.auth_error_count ∧
    (m.record_request latency success instances).histSum = m.histSum + 1 := by
  simp only [Metrics.record_request, Metrics.histSum]
  split_ifs <;> simp <;> omega

theorem Metrics.record_validation_error_counts (m : Metrics) :
    m.record_validation_error.request_count = m.request_count ∧
    m.record_validation_error.error_count = m.error_count + 1 ∧
    m.record_validation_error.prediction_count = m.prediction_count ∧
    m.record_validation_error.validation_error_count =
      m.validation_error_count + 1 ∧
    m.record_validation_error.auth_error_count = m.auth_error_count ∧
    m.record_validation_error.histSum = m.histSum := by
  simp [Metrics.record_validation_error, Metrics.histSum]

theorem Metrics.record_auth_error_counts (m : Metrics) :
    m.record_auth_error.request_count = m.request_count ∧
    m.record_auth_error.error_count = m.error_count + 1 ∧
    m.record_auth_error.prediction_count = m.prediction_count ∧
    m.record_auth_error.validation_error_count = m.validation_error_count ∧
    m.record_auth_error.auth_error_count = m.auth_error_count + 1 ∧
    m.record_auth_error.histSum = m.histSum := by
  simp [Metrics.record_auth_error, Metrics.histSum]

/-! ### Helper lemmas about authentication -/

theorem verify_api_key_ok (cfg : Config) (key : Option String) (m : Metrics)
    (h : cfg.apiKey = "" ∨ key = some cfg.apiKey) :
    verify_api_key cfg key m = (.ok (), m) := by
  rcases h with h | h
  · simp [verify_api_key, h]
  · subst h
    simp only [verify_api_key, Option.getD_some]
    split_ifs <;> simp_all

theorem verify_api_key_error (cfg : Config) (key : Option String)
    (m : Metrics) (e : InferenceErr) (m1 : Metrics)
    (h : verify_api_key cfg key m = (.error e, m1)) :
    e.error_code = "AUTHENTICATION_ERROR" ∧ m1 = m.record_auth_error := by
  simp only [verify_api_key] at h
  split_ifs at h
  · simp at h
  · simp only [Prod.mk.injEq, Except.error.injEq] at h
    exact ⟨by rw [← h.1], h.2.symm⟩
  · simp only [Prod.mk.injEq, Except.error.injEq] at h
    exact ⟨by rw [← h.1], h.2.symm⟩
  · simp at h

theorem verify_api_key_rejects (cfg : Config) (key : Option String)
    (m : Metrics) (hk : cfg.apiKey ≠ "") (hmiss : key ≠ some cfg.apiKey) :
    ∃ e, verify_api_key cfg key m = (.error e, m.record_auth_error) ∧
      e.error_code = "AUTHENTICATION_ERROR" := by
  simp only [verify_api_key, if_neg hk]
  split_ifs with h1 h2
  · exact ⟨_, rfl, rfl⟩
  · exact ⟨_, rfl, rfl⟩
  · exfalso
    rcases key with _ | s
    · exact h1 rfl
    · simp only [Option.getD_some] at h2
      exact hmiss (by rw [not_not.mp h2])

/-! ### Helper lemmas about validation -/

theorem validate_instances_eq_none (cfg : Config) (v : List (List FVal))
    (hne : v ≠ []) (hlen : v.length ≤ cfg.maxBatchSize) :
    validate_instances cfg v = none := by
  simp [validate_instances, hne, Nat.not_lt.mpr hlen]

namespace ModelWrapper

theorem checkValues_eq_none (i : ℕ) (j : ℕ) (vs : List FVal)
    (h : ∀ v ∈ vs, v.isFinite = true) : checkValues i j vs = none := by
  induction vs generalizing j with
  | nil => rfl
  | cons v rest ih =>
    have hv := h v (List.mem_cons_self v rest)
    simp only [checkValues, hv, if_true]
    exact ih _ fun w hw => h w (List.mem_cons_of_mem v hw)

theorem checkInstances_eq_none (cfg : Config) (i : ℕ) (f : List (List FVal))
    (h : ∀ r ∈ f, r.length ≤ cfg.maxFeatures ∧ ∀ v ∈ r, v.isFinite = true) :
    checkInstances cfg i f = none := by
  induction f generalizing i with
  | nil => rfl
  | cons r rest ih =>
    have hr := h r (List.mem_cons_self r rest)
    simp only [checkInstances, checkInstance, Nat.not_lt.mpr hr.1, if_neg,
      checkValues_eq_none i 0 r hr.2]
    exact ih _ fun w hw => h w (List.mem_cons_of_mem r hw)

theorem validate_input_eq_none (cfg : Config) (f : List (List FVal))
    (hne : f ≠ []) (hlen : f.length ≤ cfg.maxBatchSize)
    (h : ∀ r ∈ f, r.length ≤ cfg.maxFeatures ∧ ∀ v ∈ r, v.isFinite = true) :
    validate_input cfg f = none := by
  simp [validate_input, hne, Nat.not_lt.mpr hlen, checkInstances_eq_none cfg 0 f h]

theorem checkValues_code (i j : ℕ) (vs : List FVal) (e : InferenceErr)
    (h : checkValues i j vs = some e) : e.error_code = "VALIDATION_ERROR" := by
  induction vs generalizing j with
  | nil => simp [checkValues] at h
  | cons v rest ih =>
    simp only [checkValues] at h
    split_ifs at h
    · exact ih _ h
    · cases h
      rfl

theorem checkInstances_code (cfg : Config) (i : ℕ) (f : List (List FVal))
    (e : InferenceErr) (h : checkInstances cfg i f = some e) :
    e.error_code = "VALIDATION_ERROR" := by
  induction f generalizing i with
  | nil => simp [checkInstances] at h
  | cons r rest ih =>
    simp only [checkInstances] at h
    split at h
    next e' hc =>
      cases h
      simp only [checkInstance] at hc
      split_ifs at hc with hlen
      · cases hc
        rfl
      · exact checkValues_code i 0 r _ hc
    next hc => exact ih _ h

theorem validate_input_code (cfg : Config) (f : List (List FVal))
    (e : InferenceErr) (h : validate_input cfg f = some e) :
    e.error_code = "VALIDATION_ERROR" := by
  simp only [validate_input] at h
  split_ifs at h
  · cases h; rfl
  · cases h; rfl
  · exact checkInstances_code cfg 0 f e h

theorem predict_error_code (loaded : Bool) (cfg : Config)
    (net : List FVal → PredResult) (f : List (List FVal)) (e : InferenceErr)
    (h : predict loaded cfg net f = .error e) :
    e.error_code = "MODEL_NOT_LOADED" ∨ e.error_code = "VALIDATION_ERROR" ∨
      e.error_code = "PREDICTION_ERROR" := by
  simp only [predict] at h
  split_ifs at h with h1 h2
  · cases h
    left
    rfl
  · split at h
    next e' hv =>
      cases h
      right; left
      exact validate_input_code cfg f _ hv
    next hv => simp at h
  · split at h
    next e' hv =>
      cases h
      right; left
      exact validate_input_code cfg f _ hv
    next hv =>
      cases h
      right; right
      rfl

theorem torchTensorOk_widths (f : List (List FVal))
    (h : torchTensorOk f = true) : ∀ r ∈ f, r.length = batchWidth f := by
  match f with
  | [] => intro r hr; cases hr
  | r0 :: rs =>
    intro r hr
    simp only [torchTensorOk, List.all_eq_true] at h
    rcases List.mem_cons.mp hr with rfl | hr
    · rfl
    · have := h r hr
      simpa [batchWidth, beq_iff_eq] using this

theorem adjustRow_eq_normalize10 (w : ℕ) (row : List FVal)
    (h : row.length = w) :
    adjustRow w input_features row = normalize10 row := by
  subst h
  simp only [adjustRow, normalize10]
  split_ifs with h1 h2
  · rfl
  · rfl
  · have hlen : row.length = input_features :=
      Nat.le_antisymm (Nat.not_lt.mp h2) (Nat.not_lt.mp h1)
    rw [← hlen, List.take_length]

theorem predict_ok_eq (cfg : Config) (net : List FVal → PredResult)
    (f : List (List FVal)) (rs : List PredResult)
    (h : predict true cfg net f = .ok rs) :
    rs = f.map (fun r => net (normalize10 r)) := by
  rcases hv : validate_input cfg f with _ | e
  · cases hrect : torchTensorOk f
    · simp [predict, hv, hrect] at h
    · simp [predict, hv, hrect, List.map_map] at h
      rw [← h]
      exact List.map_congr_left fun r hr => by
        simp only [Function.comp_apply]
        rw [adjustRow_eq_normalize10 _ _ (torchTensorOk_widths f hrect r hr)]
  · simp [predict, hv] at h

theorem predict_ok_of (cfg : Config) (net : List FVal → PredResult)
    (f : List (List FVal)) (hne : f ≠ [])
    (hlen : f.length ≤ cfg.maxBatchSize)
    (hinst : ∀ r ∈ f, r.length ≤ cfg.maxFeatures ∧ ∀ v ∈ r, v.isFinite = true)
    (hrect : torchTensorOk f = true) :
    predict true cfg net f = .ok (f.map (fun r => net (normalize10 r))) := by
  have hv := validate_input_eq_none cfg f hne hlen hinst
  simp [predict, hv, hrect, List.map_map]
  intro r hr
  rw [adjustRow_eq_normalize10 _ _ (torchTensorOk_widths f hrect r hr)]

end ModelWrapper

/-- Preservation of the corrected metrics invariant by one recording
call. -/
theorem MEvent.apply_inv (m : Metrics) (e : MEvent)
    (h1 : m.request_count + m.validation_error_count + m.auth_error_count =
      m.prediction_count + m.error_count)
    (h2 : m.histSum = m.request_count) :
    (MEvent.apply m e).request_count +
        (MEvent.apply m e).validation_error_count +
        (MEvent.apply m e).auth_error_count =
      (MEvent.apply m e).prediction_count + (MEvent.apply m e).error_count ∧
    (MEvent.apply m e).histSum = (MEvent.apply m e).request_count := by
  cases e with
  | req latency success instances =>
    obtain ⟨q1, q2, q3, q4, q5, q6⟩ :=
      Metrics.record_request_counts m latency success instances
    simp only [MEvent.apply, q1, q2, q3, q4, q5, q6]
    cases success <;> simp <;> omega
  | valErr =>
    obtain ⟨q1, q2, q3, q4, q5, q6⟩ := Metrics.record_validation_error_counts m
    simp only [MEvent.apply, q1, q2, q3, q4, q5, q6]
    omega
  | authErr =>
    obtain ⟨q1, q2, q3, q4, q5, q6⟩ := Metrics.record_auth_error_counts m
    simp only [MEvent.apply, q1, q2, q3, q4, q5, q6]
    omega

/-- C2 counterexample: after the single call `record_validation_error`
(a reachable state — it is what `inference_error_handler` performs for a
validation failure), `request_count` is 0 while
`prediction_count + error_count` is 1, so the claimed equation
`request_count = prediction_count + error_count` fails. -/
theorem C2_counterexample :
    ¬ ((runEvents [MEvent.valErr]).request_count =
        (runEvents [MEvent.valErr]).prediction_count +
          (runEvents [MEvent.valErr]).error_count) := by
  decide

/-- C2 (amended): for every reachable state of the metrics collector,
`request_count + validation_error_count + auth_error_count =
prediction_count + error_count` (the stated equation
`request_count = prediction_count + error_count` holds only for the
`record_request`-generated part of `error_count`), and the sum of all
latency-histogram bucket counts equals `request_count`. -/
theorem C2_metrics_invariant (es : List MEvent) :
    (runEvents es).request_count + (runEvents es).validation_error_count +
        (runEvents es).auth_error_count =
      (runEvents es).prediction_count + (runEvents es).error_count ∧
    (runEvents es).histSum = (runEvents es).request_count := by
  have gen : ∀ (l : List MEvent) (m : Metrics),
      (m.request_count + m.validation_error_count + m.auth_error_count =
        m.prediction_count + m.error_count ∧ m.histSum = m.request_count) →
      ((l.foldl MEvent.apply m).request_count +
          (l.foldl MEvent.apply m).validation_error_count +
          (l.foldl MEvent.apply m).auth_error_count =
        (l.foldl MEvent.apply m).prediction_count +
          (l.foldl MEvent.apply m).error_count ∧
        (l.foldl MEvent.apply m).histSum =
          (l.foldl MEvent.apply m).request_count) := by
    intro l
    induction l with
    | nil => intro m hm; exact hm
    | cons e rest ih =>
      intro m hm
      simp only [List.foldl_cons]
      exact ih _ (MEvent.apply_inv m e hm.1 hm.2)
  exact gen es Metrics.init ⟨rfl, rfl⟩

/-- C5: the failure-kind → transport-status mapping of the error
handlers is total and matches the fixed table (ModelNotLoaded and
ModelLoadError 503, ValidationError 422, PredictionError 500,
AuthenticationError 401, RateLimitError 429); any error code outside the
table gets status 500, and any exception reaching the boundary — also a
non-`InferenceError` one — is formatted as a structured `APIError`
(status 500, code INTERNAL_ERROR for the unclassified case) rather than
propagating unformatted. -/
theorem C5_error_taxonomy :
    statusOf "MODEL_NOT_LOADED" = 503 ∧
    statusOf "MODEL_LOAD_ERROR" = 503 ∧
    statusOf "VALIDATION_ERROR" = 422 ∧
    statusOf "PREDICTION_ERROR" = 500 ∧
    statusOf "AUTHENTICATION_ERROR" = 401 ∧
    statusOf "RATE_LIMIT_ERROR" = 429 ∧
    (∀ code : String, List.lookup code status_code_map = none →
      statusOf code = 500) ∧
    (∀ (msg : String) (m : Metrics),
      (handleException (.other msg) m).1 =
        ⟨500, .apiError ⟨"INTERNAL_ERROR", "An unexpected error occurred", []⟩⟩) ∧
    (∀ (exc : Exc) (m : Metrics),
      (handleException exc m).1.payload.errorRecords = 1) := by
  refine ⟨rfl, rfl, rfl, rfl, rfl, rfl, ?_, ?_, ?_⟩
  · intro code h
    simp [statusOf, h]
  · intro msg m
    rfl
  · intro exc m
    cases exc with
    | inferr e => rfl
    | other msg => rfl

/-- C5 witness: the taxonomy's default branch evaluated at a concrete
code outside the table. -/
theorem C5_error_taxonomy_witness : statusOf "SOME_OTHER_ERROR" = 500 :=
  C5_error_taxonomy.2.2.2.2.2.2.1 "SOME_OTHER_ERROR" (by decide)

/-- C7 (code bug): at the concrete state reached by recording two
successful requests with latencies 5 ms and 30 ms, the exposition
renders `le="0.05"` as 1 — its own bucket's count, not the 2 latencies
that are ≤ 50 ms — and renders `le="+Inf"` as 0 although
`request_count` is 2; internally each latency was indeed filed into the
first bucket whose bound it does not exceed (5 ms into `le_10ms`, 30 ms
into `le_50ms`), so the rendering is not cumulative as a Prometheus
histogram must be. -/
theorem C7_noncumulative_buckets :
    ((Metrics.init.record_request (1/200) true 0).record_request (3/100)
        true 0).request_count = 2 ∧
    ((Metrics.init.record_request (1/200) true 0).record_request (3/100)
        true 0).le_10ms = 1 ∧
    ((Metrics.init.record_request (1/200) true 0).record_request (3/100)
        true 0).le_50ms = 1 ∧
    ((Metrics.init.record_request (1/200) true 0).record_request (3/100)
        true 0).renderedBucket "0.05" = some 1 ∧
    ((Metrics.init.record_request (1/200) true 0).record_request (3/100)
        true 0).renderedBucket "+Inf" = some 0 := by
  norm_num [Metrics.record_request, Metrics.init, Metrics.renderedBucket,
    Metrics.bucketLines, List.lookup]
  decide

/-- C4 counterexample: the empty-instances request is rejected by the
pydantic `field_validator` while the body is parsed, so the 422 response
is the framework's own `detail` payload: it carries no
`error_code = "VALIDATION_ERROR"` field, and `validation_error_count`
is not incremented (the custom handler never runs). -/
theorem C4_counterexample :
    (handlePredict defaultConfig true constNet 0 none [] Metrics.init).1.status
        = 422 ∧
    (handlePredict defaultConfig true constNet 0 none []
        Metrics.init).1.payload.errorCodeOf ≠ some "VALIDATION_ERROR" ∧
    (handlePredict defaultConfig true constNet 0 none []
        Metrics.init).2.validation_error_count =
      Metrics.init.validation_error_count := by
  decide

/-- C4 (amended): for every request to /predict whose instances list is
empty (auth passing), the response has status 422, but its payload is
the framework's body-parse error ("instances cannot be empty") with no
`error_code` field, and the metrics state — `validation_error_count`
included — is completely unchanged. -/
theorem C4_empty_batch (cfg : Config) (loaded : Bool)
    (net : List FVal → PredResult) (latency : ℚ) (key : Option String)
    (m : Metrics) (hauth : cfg.apiKey = "" ∨ key = some cfg.apiKey) :
    handlePredict cfg loaded net latency key [] m =
      (⟨422, .parseError "instances cannot be empty"⟩, m) ∧
    (handlePredict cfg loaded net latency key [] m).2.validation_error_count =
      m.validation_error_count := by
  have h : handlePredict cfg loaded net latency key [] m =
      (⟨422, .parseError "instances cannot be empty"⟩, m) := by
    simp [handlePredict, verify_api_key_ok cfg key m hauth, validate_instances]
  exact ⟨h, by rw [h]⟩

/-- C4 witness: the amended statement at a concrete empty-batch
request. -/
theorem C4_empty_batch_witness :
    handlePredict defaultConfig true constNet 0 none [] Metrics.init =
      (⟨422, .parseError "instances cannot be empty"⟩, Metrics.init) ∧
    (handlePredict defaultConfig true constNet 0 none []
        Metrics.init).2.validation_error_count =
      Metrics.init.validation_error_count :=
  C4_empty_batch defaultConfig true constNet 0 none Metrics.init (Or.inl rfl)

/-- C8 counterexample: a batch of length `max_batch_size + 1` (101 with
the default limits) is rejected by the pydantic `field_validator` while
the body is parsed, so the 422 response is the framework's payload with
no `details` mapping at all — in particular no
`details.max_batch_size`/`details.actual`. -/
theorem C8_counterexample :
    (handlePredict defaultConfig true constNet 0 none
        (List.replicate 101 [FVal.num 1]) Metrics.init).1.status = 422 ∧
    (handlePredict defaultConfig true constNet 0 none
        (List.replicate 101 [FVal.num 1]) Metrics.init).1.payload.detailsOf
      = none := by
  decide

/-- C8 (amended): for every request whose batch has length
`max_batch_size + 1` (auth passing), the response has status 422, but it
is the framework's body-parse error ("batch size exceeds maximum of
...") carrying no structured `details` (the `ValidationError` of
`ModelWrapper.validate_input`, whose details would hold
`max_batch_size` and `actual`, is unreachable for this input because the
parse-time validator rejects first), and the metrics state is
unchanged. -/
theorem C8_batch_too_large (cfg : Config) (loaded : Bool)
    (net : List FVal → PredResult) (latency : ℚ) (key : Option String)
    (inst : List (List FVal)) (m : Metrics)
    (hauth : cfg.apiKey = "" ∨ key = some cfg.apiKey)
    (hlen : inst.length = cfg.maxBatchSize + 1) :
    handlePredict cfg loaded net latency key inst m =
      (⟨422, .parseError
        ("batch size exceeds maximum of " ++ toString cfg.maxBatchSize)⟩, m) ∧
    (handlePredict cfg loaded net latency key inst m).1.payload.detailsOf
      = none := by
  have hempty : inst.isEmpty = false := by
    cases inst
    · simp at hlen
    · rfl
  have hv : validate_instances cfg inst =
      some ("batch size exceeds maximum of " ++ toString cfg.maxBatchSize) := by
    simp [validate_instances, hempty, hlen]
  have h : handlePredict cfg loaded net latency key inst m =
      (⟨422, .parseError
        ("batch size exceeds maximum of " ++ toString cfg.maxBatchSize)⟩, m) := by
    simp [handlePredict, verify_api_key_ok cfg key m hauth, hv]
  exact ⟨h, by rw [h]; rfl⟩

/-- C8 witness: the amended statement at a concrete 101-instance batch
under the default limits. -/
theorem C8_batch_too_large_witness :
    handlePredict defaultConfig true constNet 0 none
        (List.replicate 101 [FVal.num 1]) Metrics.init =
      (⟨422, .parseError "batch size exceeds maximum of 100"⟩,
        Metrics.init) ∧
    (handlePredict defaultConfig true constNet 0 none
        (List.replicate 101 [FVal.num 1]) Metrics.init).1.payload.detailsOf
      = none :=
  C8_batch_too_large defaultConfig true constNet 0 none
    (List.replicate 101 [FVal.num 1]) Metrics.init (Or.inl rfl) (by decide)

/-- C10: whenever the model is not loaded, every request that passes
body parsing (and auth) gets status 503 with the `MODEL_NOT_LOADED`
structured payload, with only `record_request(latency, success=False)`
applied to the metrics — uniformly in the batch's content, so the
batch-content validation rules (shape, feature count, finiteness) are
never evaluated for such a request. -/
theorem C10_not_loaded (cfg : Config) (net : List FVal → PredResult)
    (latency : ℚ) (key : Option String) (inst : List (List FVal))
    (m : Metrics) (hauth : cfg.apiKey = "" ∨ key = some cfg.apiKey)
    (hparse : validate_instances cfg inst = none) :
    handlePredict cfg false net latency key inst m =
      (⟨503, .apiError .modelNotLoaded⟩,
        m.record_request latency false 0) := by
  simp [handlePredict, verify_api_key_ok cfg key m hauth, hparse,
    inference_error_handler, InferenceErr.modelNotLoaded, statusOf,
    status_code_map, List.lookup]

/-- C10 witness: the model-not-loaded short-circuit at a concrete batch
whose content would fail validation (a NaN feature), showing content
validation is bypassed. -/
theorem C10_not_loaded_witness :
    handlePredict defaultConfig false constNet 0 none [[FVal.nan]]
        Metrics.init =
      (⟨503, .apiError .modelNotLoaded⟩,
        Metrics.init.record_request 0 false 0) :=
  C10_not_loaded defaultConfig constNet 0 none [[FVal.nan]] Metrics.init
    (Or.inl rfl) (by decide)

/-- C6: when `API_KEY` is unset (empty), no request is ever rejected for
authentication (the status is never 401 and the error payload never
carries `AUTHENTICATION_ERROR`); when it is set, every request whose
presented key is absent or differs from `API_KEY` is rejected with
status 401 and `auth_error_count` is incremented by exactly one. -/
theorem C6_auth_gate (cfg : Config) (loaded : Bool)
    (net : List FVal → PredResult) (latency : ℚ) (key : Option String)
    (inst : List (List FVal)) (m : Metrics) :
    (cfg.apiKey = "" →
      (handlePredict cfg loaded net latency key inst m).1.status ≠ 401 ∧
      (handlePredict cfg loaded net latency key inst m).1.payload.errorCodeOf
        ≠ some "AUTHENTICATION_ERROR") ∧
    (cfg.apiKey ≠ "" → key ≠ some cfg.apiKey →
      (handlePredict cfg loaded net latency key inst m).1.status = 401 ∧
      (handlePredict cfg loaded net latency key inst m).2.auth_error_count =
        m.auth_error_count + 1) := by
  constructor
  · intro hk
    have hok := verify_api_key_ok cfg key m (Or.inl hk)
    simp only [handlePredict, hok]
    rcases hv : validate_instances cfg inst with _ | msg
    · by_cases hl : loaded = false
      · simp [hl, inference_error_handler, InferenceErr.modelNotLoaded,
          statusOf, status_code_map, Payload.errorCodeOf, List.lookup]
      · rcases hp : ModelWrapper.predict loaded cfg net inst with e | rs
        · rcases ModelWrapper.predict_error_code loaded cfg net inst e hp
            with hc | hc | hc <;>
          simp [hl, hp, inference_error_handler, hc, statusOf,
            status_code_map, Payload.errorCodeOf, List.lookup]
        · simp [hl, hp, Payload.errorCodeOf]
    · simp [Payload.errorCodeOf]
  · intro hk hmiss
    obtain ⟨e, hva, hcode⟩ := verify_api_key_rejects cfg key m hk hmiss
    simp only [handlePredict, hva]
    simp [inference_error_handler, hcode, statusOf, status_code_map,
      List.lookup, Metrics.record_auth_error]

/-- C6 witness: both halves at concrete requests — open mode with no
key, and enabled auth with a missing key. -/
theorem C6_auth_gate_witness :
    ((handlePredict defaultConfig true constNet 0 none [[FVal.num 1]]
        Metrics.init).1.status ≠ 401 ∧
      (handlePredict defaultConfig true constNet 0 none [[FVal.num 1]]
        Metrics.init).1.payload.errorCodeOf ≠ some "AUTHENTICATION_ERROR") ∧
    ((handlePredict ⟨100, 1000, "secret"⟩ true constNet 0 none
        [[FVal.num 1]] Metrics.init).1.status = 401 ∧
      (handlePredict ⟨100, 1000, "secret"⟩ true constNet 0 none
        [[FVal.num 1]] Metrics.init).2.auth_error_count =
        Metrics.init.auth_error_count + 1) :=
  ⟨(C6_auth_gate defaultConfig true constNet 0 none [[FVal.num 1]]
      Metrics.init).1 rfl,
   (C6_auth_gate ⟨100, 1000, "secret"⟩ true constNet 0 none [[FVal.num 1]]
      Metrics.init).2 (by decide) (by decide)⟩

/-- C1 counterexample: the ragged batch `[[1.0], [1.0, 2.0]]` is
non-empty, within the batch-size limit, and every instance is a list of
finite numbers of length at most `max_features_per_instance`, yet
`torch.tensor` raises on it, so `/predict` answers 500
(`PREDICTION_ERROR`), not 200. -/
theorem C1_counterexample :
    (handlePredict defaultConfig true constNet 0 none
        [[FVal.num 1], [FVal.num 1, FVal.num 2]] Metrics.init).1.status
      = 500 ∧
    (handlePredict defaultConfig true constNet 0 none
        [[FVal.num 1], [FVal.num 1, FVal.num 2]]
        Metrics.init).1.payload.errorCodeOf = some "PREDICTION_ERROR" := by
  decide

/-- C1 (amended): for every non-empty rectangular batch (all instances
of one common length) whose length is at most `max_batch_size` and whose
instances are lists of finite numeric values each of length at most
`max_features_per_instance`, when the model is loaded (and auth passes),
POST /predict returns status 200 and the predictions list has the same
length as the submitted batch. -/
theorem C1_predict_success (cfg : Config) (net : List FVal → PredResult)
    (latency : ℚ) (key : Option String) (f : List (List FVal)) (m : Metrics)
    (hauth : cfg.apiKey = "" ∨ key = some cfg.apiKey)
    (hne : f ≠ []) (hlen : f.length ≤ cfg.maxBatchSize)
    (hinst : ∀ r ∈ f, r.length ≤ cfg.maxFeatures ∧
      ∀ v ∈ r, v.isFinite = true)
    (hrect : ModelWrapper.torchTensorOk f = true) :
    (handlePredict cfg true net latency key f m).1.status = 200 ∧
    ∃ rs, (handlePredict cfg true net latency key f m).1.payload =
        .success rs ∧ rs.length = f.length := by
  have hok := verify_api_key_ok cfg key m hauth
  have hv := validate_instances_eq_none cfg f hne hlen
  have hp := ModelWrapper.predict_ok_of cfg net f hne hlen hinst hrect
  simp only [handlePredict, hok, hv, hp]
  exact ⟨by simp, f.map (fun r => net (normalize10 r)), by simp, by simp⟩

/-- C1 witness: the amended statement at a concrete accepted batch. -/
theorem C1_predict_success_witness :
    (handlePredict defaultConfig true constNet 0 none
        [[FVal.num 1, FVal.num 2], [FVal.num 3, FVal.num 4]]
        Metrics.init).1.status = 200 ∧
    ∃ rs, (handlePredict defaultConfig true constNet 0 none
        [[FVal.num 1, FVal.num 2], [FVal.num 3, FVal.num 4]]
        Metrics.init).1.payload = Payload.success rs ∧ rs.length = 2 :=
  C1_predict_success defaultConfig constNet 0 none
    [[FVal.num 1, FVal.num 2], [FVal.num 3, FVal.num 4]] Metrics.init
    (Or.inl rfl) (by decide) (by decide) (by decide) (by decide)

/-- C9: the successful prediction outcomes are exactly the per-row
network applied to each instance's first `input_features` (10) values
after zero-padding shorter instances — so feature positions beyond 10
are silently ignored — and any two accepted instances (possibly from
different accepted batches) that agree on that projection get identical
outcomes. -/
theorem C9_first_ten_features (cfg : Config) (net : List FVal → PredResult)
    (f g : List (List FVal)) (rs ss : List PredResult) (i j : ℕ)
    (hf : ModelWrapper.predict true cfg net f = .ok rs)
    (hg : ModelWrapper.predict true cfg net g = .ok ss)
    (heq : (f[i]?).map normalize10 = (g[j]?).map normalize10) :
    rs = f.map (fun r => net (normalize10 r)) ∧
    rs[i]? = ss[j]? := by
  have h1 := ModelWrapper.predict_ok_eq cfg net f rs hf
  have h2 := ModelWrapper.predict_ok_eq cfg net g ss hg
  subst h1
  subst h2
  refine ⟨rfl, ?_⟩
  have hcomp : ∀ (o : Option (List FVal)),
      o.map (fun r => net (normalize10 r)) = (o.map normalize10).map net := by
    intro o
    cases o <;> rfl
  rw [List.getElem?_map, List.getElem?_map, hcomp, hcomp, heq]

/-- C9 witness: two one-instance batches with 11 features agreeing on
the first 10 (and differing at position 11) get the same outcome. -/
theorem C9_first_ten_features_witness :
    ([constNet (List.replicate 10 (FVal.num 1))] : List PredResult)[0]? =
      ([constNet (List.replicate 10 (FVal.num 1))] :
        List PredResult)[0]? :=
  (C9_first_ten_features defaultConfig constNet
    [List.replicate 10 (FVal.num 1) ++ [FVal.num 5]]
    [List.replicate 10 (FVal.num 1) ++ [FVal.num 7]]
    [constNet (List.replicate 10 (FVal.num 1))]
    [constNet (List.replicate 10 (FVal.num 1))] 0 0
    (by rfl) (by rfl) (by decide)).2

/-- Case split on the outcome of the auth dependency: it either passes
with the metrics untouched or fails with an AUTHENTICATION_ERROR after
`record_auth_error`. -/
theorem verify_api_key_cases (cfg : Config) (key : Option String)
    (m : Metrics) :
    verify_api_key cfg key m = (.ok (), m) ∨
    ∃ e, verify_api_key cfg key m = (.error e, m.record_auth_error) ∧
      e.error_code = "AUTHENTICATION_ERROR" := by
  simp only [verify_api_key]
  split_ifs
  · exact Or.inl rfl
  · exact Or.inr ⟨_, rfl, rfl⟩
  · exact Or.inr ⟨_, rfl, rfl⟩
  · exact Or.inl rfl

/-- C3 counterexample: a request with a NaN feature fails validation
inside the handler; `error_count` grows by 2 for this single failing
request — once in the `finally` block's `record_request(success=False)`
and once more in `inference_error_handler`'s
`record_validation_error` — not by exactly 1 as claimed. -/
theorem C3_counterexample :
    (handlePredict defaultConfig true constNet 0 none [[FVal.nan]]
        Metrics.init).1.status ≠ 200 ∧
    (handlePredict defaultConfig true constNet 0 none [[FVal.nan]]
        Metrics.init).2.error_count = Metrics.init.error_count + 2 := by
  refine ⟨?_, ?_⟩
  · norm_num [handlePredict, verify_api_key, defaultConfig,
      validate_instances, ModelWrapper.predict, ModelWrapper.validate_input,
      ModelWrapper.checkInstances, ModelWrapper.checkInstance,
      ModelWrapper.checkValues, FVal.isFinite, inference_error_handler,
      statusOf, status_code_map, Metrics.record_request,
      Metrics.record_validation_error, Metrics.init, List.lookup]
    decide
  · norm_num [handlePredict, verify_api_key, defaultConfig,
      validate_instances, ModelWrapper.predict, ModelWrapper.validate_input,
      ModelWrapper.checkInstances, ModelWrapper.checkInstance,
      ModelWrapper.checkValues, FVal.isFinite, inference_error_handler,
      statusOf, status_code_map, Metrics.record_request,
      Metrics.record_validation_error, Metrics.init, List.lookup]

/-- C3 (amended): over the whole handling of one `/predict` request,
`error_count` grows by exactly `errDelta` of the response payload: by 2
for a validation failure raised inside the handler (counted by both
`record_request(success=False)` and `record_validation_error`), by 0 for
a body-parse failure (the framework handles it without touching the
metrics), by 1 for every other failure, and by 0 on success; moreover
every failing request yields either exactly one structured ErrorRecord
(`APIError` payload) or a framework parse payload carrying none. -/
theorem C3_error_accounting (cfg : Config) (loaded : Bool)
    (net : List FVal → PredResult) (latency : ℚ) (key : Option String)
    (inst : List (List FVal)) (m : Metrics) :
    (handlePredict cfg loaded net latency key inst m).2.error_count =
      m.error_count +
        errDelta (handlePredict cfg loaded net latency key inst m).1.payload ∧
    ((handlePredict cfg loaded net latency key inst m).1.status ≠ 200 →
      (∃ e, (handlePredict cfg loaded net latency key inst m).1.payload =
          Payload.apiError e ∧
        (handlePredict cfg loaded net latency key inst m).1.payload.errorRecords
          = 1) ∨
      (∃ s, (handlePredict cfg loaded net latency key inst m).1.payload =
          Payload.parseError s ∧
        (handlePredict cfg loaded net latency key inst m).1.payload.errorRecords
          = 0)) := by
  obtain ⟨q1, q2, q3, q4, q5, q6⟩ :=
    Metrics.record_request_counts m latency false 0
  rcases verify_api_key_cases cfg key m with hva | ⟨e, hva, hcode⟩
  · simp only [handlePredict, hva]
    rcases hv : validate_instances cfg inst with _ | msg
    · by_cases hl : loaded = false
      · simp [hl, inference_error_handler, InferenceErr.modelNotLoaded,
          errDelta, Payload.errorRecords, q2]
      · rcases hp : ModelWrapper.predict loaded cfg net inst with e | rs
        · by_cases hc : e.error_code = "VALIDATION_ERROR"
          · simp [hl, hp, inference_error_handler, hc, errDelta,
              Payload.errorRecords, Metrics.record_validation_error, q2]
          · simp [hl, hp, inference_error_handler, hc, errDelta,
              Payload.errorRecords, q2]
        · obtain ⟨s1, s2, s3, s4, s5, s6⟩ :=
            Metrics.record_request_counts m latency true inst.length
          simp [hl, hp, errDelta, s2]
    · simp [errDelta, Payload.errorRecords]
  · obtain ⟨a1, a2, a3, a4, a5, a6⟩ := Metrics.record_auth_error_counts m
    have hcv : e.error_code ≠ "VALIDATION_ERROR" := by
      rw [hcode]
      decide
    simp [handlePredict, hva, inference_error_handler, hcv, errDelta,
      hcode, Payload.errorRecords, a2]

/-- C3 witness: the amended statement applied at a concrete failing
request (auth failure), discharging the failing-status hypothesis. -/
theorem C3_error_accounting_witness :
    (∃ e, (handlePredict ⟨100, 1000, "secret"⟩ true constNet 0 none
        [[FVal.num 1]] Metrics.init).1.payload = Payload.apiError e ∧
      (handlePredict ⟨100, 1000, "secret"⟩ true constNet 0 none
        [[FVal.num 1]] Metrics.init).1.payload.errorRecords = 1) ∨
    (∃ s, (handlePredict ⟨100, 1000, "secret"⟩ true constNet 0 none
        [[FVal.num 1]] Metrics.init).1.payload = Payload.parseError s ∧
      (handlePredict ⟨100, 1000, "secret"⟩ true constNet 0 none
        [[FVal.num 1]] Metrics.init).1.payload.errorRecords = 0) :=
  (C3_error_accounting ⟨100, 1000, "secret"⟩ true constNet 0 none
    [[FVal.num 1]] Metrics.init).2 (by decide)

end MLInference
